import Mathlib

/-!
# Shallow embedding of the subway-locker backend route handlers

This file embeds the Express route handlers of the locker-rental backend
(`src/unnamed/part_000` — the auth router, `src/routes/posts.js`,
`src/routes/comments.js`, `src/routes/user.js` — the users router followed by
two station routers; the later station router, wired with authentication, is
the one embedded here) and proves properties of the soft-delete/restore
lifecycle, the sign-up validation chain, and the per-route parameter checks.

Conventions of the embedding:
* Request values are `JVal`, a fragment of the JavaScript value universe.
  Express route path parameters always arrive as strings (`JVal.vstr`).
* The relational store is a `Store` of record lists; soft deletion is a
  boolean marker, and `findOne`/`findByPk` under the ORM's default scope
  skip records whose marker is set (paranoid mode).
* A handler is a pure function `Store → … → Store × HResult`: the store it
  leaves behind and the HTTP outcome.  `HResult.jsError` is a JavaScript
  runtime error (for instance a `TypeError`) escaping to the generic error
  responder instead of a domain `HttpException`; `HResult.noResponse` is a
  handler path that ends without sending anything.
* External collaborators (bcrypt hashing, the weather fetch) are parameters
  of the handlers that use them; authentication middleware runs before the
  handlers modelled here and does not touch the store.
-/

namespace SubwayLocker

/-- A JavaScript value as it arrives in a request: a route path parameter or
a field of the parsed JSON body.  Objects are association lists of fields. -/
inductive JVal where
  | vstr (s : String)
  | vnum (q : Rat)
  | vnull
  | vundefined
  | vobj (fields : List (String × JVal))

/-- JavaScript truthiness of a request value (`if (!x)` tests). -/
def truthy : JVal → Bool
  | .vstr s => !s.isEmpty
  | .vnum q => q != 0
  | .vnull => false
  | .vundefined => false
  | .vobj _ => true

/-- `Number.isInteger(x)`: true exactly on integral numbers; in particular it
is false on every string, with no coercion. -/
def numberIsInteger : JVal → Bool
  | .vnum q => q.den == 1
  | _ => false

/-- Split a character list at every occurrence of `sep`, as
`String.prototype.split` does: `splitChar '@' [] = [[]]`. -/
def splitChar (sep : Char) : List Char → List (List Char)
  | [] => [[]]
  | c :: rest =>
      if c == sep then [] :: splitChar sep rest
      else
        match splitChar sep rest with
        | [] => [[c]]
        | h :: t => (c :: h) :: t

/-- Numeric value of a decimal digit character. -/
def digitVal (c : Char) : Nat := c.toNat - 48

/-- Value of a list of decimal digit characters. -/
def digitsToNat (cs : List Char) : Nat := cs.foldl (fun a c => 10 * a + digitVal c) 0

/-- Parse an unsigned decimal numeral (`123` or `12.5` or `12.` or `.5`), the
shape produced by the JavaScript `Number` coercion on the numerals this
backend receives.  Other numeric syntaxes (hex, exponents, `Infinity`) are
never supplied by a route of this repository and are mapped to NaN (`none`). -/
def parseDecimal (cs : List Char) : Option Rat :=
  match splitChar '.' cs with
  | [w] => if !w.isEmpty && w.all (·.isDigit) then some (digitsToNat w) else none
  | [w, f] =>
      if w.all (·.isDigit) && f.all (·.isDigit) && !(w.isEmpty && f.isEmpty) then
        some ((digitsToNat w : Rat) + (digitsToNat f : Rat) / ((10 : Rat) ^ f.length))
      else none
  | _ => none

/-- Strip leading and trailing whitespace, as `Number()` does before parsing. -/
def jsTrim (cs : List Char) : List Char :=
  ((cs.dropWhile (·.isWhitespace)).reverse.dropWhile (·.isWhitespace)).reverse

/-- JavaScript `Number(string)` coercion: trimmed empty string is `0`, an
optionally signed decimal numeral is its value, anything else is NaN. -/
def jsStringToNumber (s : String) : Option Rat :=
  match jsTrim s.data with
  | [] => some 0
  | '-' :: rest => (parseDecimal rest).map (fun q => -q)
  | '+' :: rest => parseDecimal rest
  | cs => parseDecimal cs

/-- JavaScript `Number(x)` on a request value (`none` is NaN). -/
def jsNumberOf : JVal → Option Rat
  | .vstr s => jsStringToNumber s
  | .vnum q => some q
  | .vnull => some 0
  | .vundefined => none
  | .vobj _ => none

/-- Truthiness of the result of a `Number(x)` coercion: `0` and NaN are falsy. -/
def numTruthy : Option Rat → Bool
  | some q => q != 0
  | none => false

/-- Matching of a raw request value against an integer primary-key column in a
`where` clause: the storage layer coerces a string operand to a number before
comparing it with the integer key. -/
def paramMatchesId (p : JVal) (id : Nat) : Bool :=
  match p with
  | .vnum q => q == (id : Rat)
  | .vstr s => jsStringToNumber s == some ((id : Nat) : Rat)
  | _ => false

/-- The `UserAuthority` enum (the `BOTH` member only names a middleware rule
set and is not an authority a user record can carry). -/
inductive Authority where
  | user
  | admin
deriving DecidableEq

/-- Modelled from the spec: the `models/` directory is not under `src/`, so the
record schemas follow §3 of the specification (User: id, unique email, password
hash, authority, soft-delete marker). -/
structure UserRec where
  id : Nat
  email : String
  password : String
  authority : Authority
  deleted : Bool
deriving DecidableEq

/-- Modelled from the spec: Station(id, name unique, latitude, longitude,
soft-delete marker), §3. -/
structure StationRec where
  id : Nat
  name : String
  latitude : Rat
  longitude : Rat
  deleted : Bool
deriving DecidableEq

/-- Modelled from the spec: Locker(id, stationId → Station, userId → User
nullable, status, startDate, endDate, soft-delete marker), §3. -/
structure LockerRec where
  id : Nat
  stationId : Nat
  userId : Option Nat
  status : String
  startDate : Option String
  endDate : Option String
  deleted : Bool
deriving DecidableEq

/-- Modelled from the spec: Post(id, userId → User, title, content), §3 — no
soft-delete marker.  Title and content are optional: the posts route copies
them unvalidated from the request body, where they may be absent. -/
structure PostRec where
  id : Nat
  userId : Nat
  title : Option String
  content : Option String
deriving DecidableEq

/-- Modelled from the spec: Comment(id, postId → Post, content, soft-delete
marker), §3. -/
structure CommentRec where
  id : Nat
  postId : Nat
  content : String
  deleted : Bool
deriving DecidableEq

/-- The relational store behind all handlers. -/
structure Store where
  users : List UserRec
  stations : List StationRec
  lockers : List LockerRec
  posts : List PostRec
  comments : List CommentRec
deriving DecidableEq

/-- Outcome of one handler invocation.  Response bodies are not modelled:
claims concern status codes and store contents. -/
inductive HResult where
  | response (status : Nat) (message : String)
  | jsError
  | noResponse
deriving DecidableEq

/-- The status code a response carries; a JavaScript error or a missing
response has none. -/
def statusOf : HResult → Option Nat
  | .response s _ => some s
  | _ => none

/-- `User.findOne({where: {email}})` under the default (paranoid) scope. -/
def findActiveUserByEmail (s : Store) (email : String) : Option UserRec :=
  s.users.find? (fun u => !u.deleted && u.email == email)

/-- `User.findOne({where: {id}})` with a raw request value, default scope. -/
def findActiveUser (s : Store) (p : JVal) : Option UserRec :=
  s.users.find? (fun u => !u.deleted && paramMatchesId p u.id)

/-- `Station.findOne({where: {id}})` with a raw request value, default scope. -/
def findActiveStation (s : Store) (p : JVal) : Option StationRec :=
  s.stations.find? (fun st => !st.deleted && paramMatchesId p st.id)

/-- `Station.findOne({where: {name}})`, default scope. -/
def findActiveStationByName (s : Store) (name : String) : Option StationRec :=
  s.stations.find? (fun st => !st.deleted && st.name == name)

/-- `Comment.findOne({where: {id}})` / `Comment.findByPk(id)`, default scope. -/
def findActiveComment (s : Store) (p : JVal) : Option CommentRec :=
  s.comments.find? (fun c => !c.deleted && paramMatchesId p c.id)

/-- Auto-increment primary key for a fresh row. -/
def nextId (ids : List Nat) : Nat := ids.foldr max 0 + 1

def nextUserId (s : Store) : Nat := nextId (s.users.map (·.id))

def nextStationId (s : Store) : Nat := nextId (s.stations.map (·.id))

def nextPostId (s : Store) : Nat := nextId (s.posts.map (·.id))

/-- Modelled from the spec: `functions/checkRequiredParameters` is not under
`src/`; §4.1 describes it as a required-field presence check, so it reports
failure when a supplied value is missing (falsy).  No claim settled here is
sensitive to its exact verdict: every caller follows it with a check that
rejects the same inputs. -/
def checkRequiredParameters (vals : List JVal) : Bool := vals.all truthy

/-! ## Sign-up validation (`POST /auth/sign-up`) -/

/-- The blocked character class of the sign-up route's `specialCharacters`
regular expression (`@` and `.` are deliberately absent from it).  Brace,
backtick, apostrophe and double-quote members are written by code point. -/
def specialChars : List Char :=
  [Char.ofNat 123, Char.ofNat 125, '[', ']', '/', '?', ',', ';', ':', '|', ')', '*',
   '~', Char.ofNat 96, '!', '^', '-', '+', '<', '>', '#', '$', '%', '&', '\\', '=',
   '(', Char.ofNat 39, Char.ofNat 34]

/-- Membership in the `\s` class (the ASCII whitespace characters; the
non-ASCII space code points also matched by `\s` never influence a claim). -/
def isJsSpace (c : Char) : Bool :=
  c == ' ' || c == '\t' || c == '\n' || c == '\r' || c == Char.ofNat 11 || c == Char.ofNat 12

/-- `email.match(specialCharacters)` produces a match. -/
def hasSpecialChar (s : String) : Bool := s.data.any (fun c => specialChars.contains c)

/-- `s.match(emptySpace)` produces a match. -/
def hasJsSpace (s : String) : Bool := s.data.any isJsSpace

/-- `email.match(startEnglishNumber)` with pattern `^[0-9,a-zA-Z]`; the class
includes the comma, exactly as written in the source. -/
def startsAlnumComma (s : String) : Bool :=
  match s.data with
  | [] => false
  | c :: _ => c.isDigit || c == ',' || c.isAlpha

/-- A character of the `[0-9a-zA-Z_-]` class. -/
def isWordChar (c : Char) : Bool := c.isDigit || c.isAlpha || c == '_' || c == '-'

/-- The domain pattern `^([0-9a-zA-Z_-]+)(\.[0-9a-zA-Z_-]+)\x7b1,5\x7d$`:
since `.` is not in the repeated class, the pattern matches exactly when
splitting on `.` yields two to six nonempty all-word-character segments. -/
def domainMatches (cs : List Char) : Bool :=
  let parts := splitChar '.' cs
  decide (2 ≤ parts.length) && decide (parts.length ≤ 6) &&
    parts.all (fun p => !p.isEmpty && p.all isWordChar)

/-- `POST /auth/sign-up` (`src/unnamed/part_000`, lines 77-146).  `hash` is the
external bcrypt collaborator.  `email.split('@')[1]` is computed up front as in
the source; it is `none` (JavaScript `undefined`) when the email has no `@`,
and calling `.match` on it at the domain check raises a `TypeError`.  Every
`HttpException` thrown inside the transaction rolls it back, so error outcomes
leave the store unchanged. -/
def signUp (hash : String → String) (store : Store) (email password : String) :
    Store × HResult :=
  if (findActiveUserByEmail store email).isSome then
    (store, .response 400 "입력하신 이메일은 이미 사용 중입니다.")
  else if hasSpecialChar email then
    (store, .response 400 "입력하신 이메일에 특수문자가 있습니다.")
  else if hasJsSpace email then
    (store, .response 400 "입력하신 이메일에 공백이 있습니다.")
  else if !startsAlnumComma email then
    (store, .response 400 "이메일의 시작은 숫자나 영어로 되어야 합니다.")
  else
    match (splitChar '@' email.data).get? 1 with
    | none => (store, .jsError)
    | some dom =>
      if !domainMatches dom then
        (store, .response 400 "입력한 이메일의 도메인 부분을 다시 확인 해주세요.")
      else if decide (password.length < 8) || decide (15 < password.length) then
        (store, .response 400 "비밀번호는 8자리이상 15이하여야 합니다.")
      else if hasJsSpace password then
        (store, .response 400 "비밀번호에 공백이 있습니다.")
      else
        ({store with users :=
            store.users ++ [⟨nextUserId store, email, hash password, .user, false⟩]},
         .response 201 "")

/-! ## Posts (`POST /posts`) -/

/-- `POST /posts` (`src/routes/posts.js`, lines 44-67): the only validation is
the email-registration lookup; title and content are stored as supplied, even
absent. -/
def createPost (store : Store) (email : String) (title content : Option String) :
    Store × HResult :=
  match findActiveUserByEmail store email with
  | none => (store, .response 400 "해당하는 이메일은 등록되어 있지 않습니다.")
  | some u =>
      ({store with posts := store.posts ++ [⟨nextPostId store, u.id, title, content⟩]},
       .response 201 "")

/-! ## Comments (`src/routes/comments.js`) -/

/-- `GET /comments/:id` (lines 193-229).  `authority` and `userId` are the
identity the token middleware attached to the request. -/
def getComment (store : Store) (p : JVal) (authority : Authority) (userId : Nat) :
    Store × HResult :=
  if !truthy p then (store, .response 400 "comment 의 id 를 입력해주세요")
  else if !numberIsInteger p then (store, .response 400 " id 는 숫자를 입력해주세요.")
  else
    match findActiveComment store p with
    | none => (store, .response 400 "해당하는 댓글이 없습니다.")
    | some c =>
        if authority = .user then
          match store.posts.find? (fun post => post.id == c.postId && post.userId == userId) with
          | none => (store, .response 401 "해당 댓글에 대한 접근 권한이 없습니다.")
          | some _ => (store, .response 200 "")
        else (store, .response 200 "")

/-- `DELETE /comments/:id` (lines 249-273): soft-deletes through
`Comment.destroy({where: {id}})`, which marks the matching rows of the default
scope. -/
def deleteComment (store : Store) (p : JVal) : Store × HResult :=
  if !truthy p then (store, .response 400 "comment 의 id 를 입력해주세요")
  else if !numberIsInteger p then (store, .response 400 " id 는 숫자를 입력해주세요.")
  else
    match findActiveComment store p with
    | none => (store, .response 400 "존재하지 않는 댓글입니다.")
    | some _ =>
        ({store with comments := store.comments.map (fun c =>
            if !c.deleted && paramMatchesId p c.id then {c with deleted := true} else c)},
         .response 204 "")

/-- `PATCH /comments/restore/:id` (lines 317-345).  The numeric guard here is
`!Number(id)`, not `Number.isInteger`, so a decimal string parameter passes it;
a record found under the default scope means the comment is not deleted; and
the success path answers with status 200 (line 341). -/
def restoreComment (store : Store) (p : JVal) : Store × HResult :=
  if !truthy p then (store, .response 400 "comment 의 id 를 입력해주세요")
  else if !numTruthy (jsNumberOf p) then (store, .response 400 " id 는 숫자를 입력해주세요.")
  else
    match findActiveComment store p with
    | some _ => (store, .response 400 "삭제된 comment 가 아닙니다.")
    | none =>
        ({store with comments := store.comments.map (fun c =>
            if paramMatchesId p c.id && c.deleted then {c with deleted := false} else c)},
         .response 200 "")

/-! ## Users (`src/routes/user.js`, users router) -/

/-- `PATCH /users/:id` (lines 221-247), the user restore route.  After a
successful restore the handler fetches the restored row but never sends a
response (there is no `res.status(...)` on that path). -/
def restoreUser (store : Store) (p : JVal) : Store × HResult :=
  if !checkRequiredParameters [p] then
    (store, .response 400 "복구할 user 의 id 를 입력해주세요.")
  else if !numberIsInteger p then
    (store, .response 400 "복구할 user 의  id 는 숫자로 입력해주세요.")
  else
    match findActiveUser store p with
    | some _ => (store, .response 400 "삭제된 user 가 아닙니다.")
    | none =>
        ({store with users := store.users.map (fun u =>
            if paramMatchesId p u.id && u.deleted then {u with deleted := false} else u)},
         .noResponse)

/-! ## Stations (`src/routes/user.js`, authenticated stations router) -/

/-- `Object.keys(x)`: `none` when the call raises a `TypeError` (on `null` or
`undefined`); a string exposes its index keys, a number has none. -/
def jsObjectKeys : JVal → Option (List String)
  | .vnull => none
  | .vundefined => none
  | .vobj fs => some (fs.map Prod.fst)
  | .vstr s => some ((List.range s.length).map toString)
  | .vnum _ => some []

/-- Property access `item[k]` on a request value (`undefined` off objects). -/
def getField (v : JVal) (k : String) : JVal :=
  match v with
  | .vobj fs =>
      match fs.find? (fun kv => kv.1 == k) with
      | some kv => kv.2
      | none => .vundefined
  | _ => .vundefined

/-- `typeof x === 'object'` (true of objects and of `null`). -/
def isObjectType : JVal → Bool
  | .vobj _ => true
  | .vnull => true
  | _ => false

def requiredStationKeys : List String := ["name", "latitude", "longitude"]

/-- Outcome of validating one item of the `POST /stations` body: a thrown 400
`HttpException` with its message, a JavaScript `TypeError`, or the validated
name and coordinates to create a station from. -/
inductive ItemStep where
  | err (msg : String)
  | crash
  | ok (nm : String) (la lo : Rat)
deriving DecidableEq

/-- The validation sequence the `POST /stations` loop body runs for one item
(lines 499-542), in source order: `Object.keys(item)` — which raises a
`TypeError` on `null`/`undefined` before the explicit `item === null` test can
fire — then the empty-keys, object-type, exact-key-set, name-type,
latitude-type, latitude-range, longitude-type, longitude-range and
name-duplication checks. -/
def stationItemStep (store : Store) (item : JVal) : ItemStep :=
  match jsObjectKeys item with
  | none => .crash
  | some itemKeys =>
    if itemKeys.length == 0 then .err "입력한 데이터가 비어 있습니다."
    else if !isObjectType item then .err "입력한 데이터의 속성은 objects 이여야 합니다."
    else if !(requiredStationKeys.all (fun k => itemKeys.contains k) &&
              itemKeys.length == requiredStationKeys.length) then
      .err "data의 key 값이 잘 못되었습니다."
    else
      match getField item "name" with
      | .vstr nm =>
        match getField item "latitude" with
        | .vnum la =>
          if !(decide (-90 < la) && decide (la < 90)) then
            .err "latitude 는 -90 에서 90 사이의 값을 입력해주세요."
          else
            match getField item "longitude" with
            | .vnum lo =>
              if !(decide (-180 < lo) && decide (lo < 180)) then
                .err "longitude 는 -180 에서 180 사이의 값을 입력해주세요."
              else if (findActiveStationByName store nm).isSome then
                .err (nm ++ " 은 이미 저장되어 있습니다.")
              else .ok nm la lo
            | _ => .err "longitude 는 숫자로 입력해주세요."
        | _ => .err "latitude 는 숫자로 입력해주세요."
      | _ => .err "name은 문자로 입력해주세요."

/-- The per-item loop of `POST /stations` (lines 498-550).  The route has no
transaction: a station created for an earlier item persists when a later item
fails.  The response body (the accumulated `newStations`) is not modelled. -/
def postStationsLoop (store : Store) : List JVal → Store × HResult
  | [] => (store, .response 201 "")
  | item :: rest =>
    match stationItemStep store item with
    | .crash => (store, .jsError)
    | .err msg => (store, .response 400 msg)
    | .ok nm la lo =>
        postStationsLoop
          {store with stations := store.stations ++ [⟨nextStationId store, nm, la, lo, false⟩]}
          rest

/-- `POST /stations` (lines 487-555): `data` is the request body's `data`
field, `none` when it is absent (`if (!data)`); an array body is iterated in
index order by `for (let n in data)`. -/
def postStations (store : Store) (data : Option (List JVal)) : Store × HResult :=
  match data with
  | none => (store, .response 400 "역을 추가하기 위한 데이터(역명, 경도, 위도) 를 입력해주세요.")
  | some items => postStationsLoop store items

/-- `GET /stations/:id` (lines 654-698).  `weatherOk` stands for the external
weather fetch: when it fails the handler's error propagates (§4.4: source
behaviour is to fail the request).  The weather/locker payload of the 200
response is not modelled. -/
def getStation (store : Store) (p : JVal) (weatherOk : Bool) : Store × HResult :=
  if !truthy p then (store, .response 400 "id 값을 입력해주세요.")
  else if !numberIsInteger p then (store, .response 400 "id 값은 숫자로 입력해주세요")
  else
    match findActiveStation store p with
    | none => (store, .response 400 "해당하는 역은 없습니다.")
    | some _ => if weatherOk then (store, .response 200 "") else (store, .jsError)

/-- `DELETE /stations/:id` (lines 717-739): finds the station under the
default scope, then `Locker.destroy({where: {stationId: station.id}})` and
`Station.destroy({where: {id}})`, both acting on the default scope. -/
def deleteStation (store : Store) (p : JVal) : Store × HResult :=
  if !truthy p then (store, .response 400 "id 값을 입력해주세요.")
  else
    match findActiveStation store p with
    | none => (store, .response 400 "없는 역이름 입니다.")
    | some st =>
        ({store with
            lockers := store.lockers.map (fun l =>
              if !l.deleted && l.stationId == st.id then {l with deleted := true} else l),
            stations := store.stations.map (fun s2 =>
              if !s2.deleted && paramMatchesId p s2.id then {s2 with deleted := true} else s2)},
         .response 204 "")

/-- `PATCH /stations/restore/:id` (lines 802-839): presence check, the
`Number.isInteger` guard, the not-deleted probe, then `Station.restore({where:
{id}})` followed by `Locker.restore({where: {stationId: id}})` — the raw
parameter in both `where` clauses — and a status-200 response (line 835). -/
def restoreStation (store : Store) (p : JVal) : Store × HResult :=
  if !checkRequiredParameters [p] then
    (store, .response 400 "복구할 station 의 id 를 입력해주세요.")
  else if !numberIsInteger p then
    (store, .response 400 "복구할 station 의  id 는 숫자로 입력해주세요.")
  else
    match findActiveStation store p with
    | some _ => (store, .response 400 "삭제된 station 이 아닙니다.")
    | none =>
        ({store with
            stations := store.stations.map (fun s2 =>
              if paramMatchesId p s2.id && s2.deleted then {s2 with deleted := false} else s2),
            lockers := store.lockers.map (fun l =>
              if paramMatchesId p l.stationId && l.deleted then {l with deleted := false} else l)},
         .response 200 "")

/-! ## The station/locker lifecycle state machine -/

/-- The operations of the station soft-delete/restore state machine. -/
inductive StationOp where
  | del (p : JVal)
  | restore (p : JVal)

/-- The store left behind by one station lifecycle operation. -/
def applyStationOp (s : Store) : StationOp → Store
  | .del p => (deleteStation s p).1
  | .restore p => (restoreStation s p).1

/-- States reachable from `init` by station DELETE and restore operations. -/
inductive ReachableFrom (init : Store) : Store → Prop where
  | refl : ReachableFrom init init
  | step : ∀ {s : Store} (op : StationOp), ReachableFrom init s →
      ReachableFrom init (applyStationOp s op)

/-- The cross-entity invariant of §4.3: no locker is active while a station
owning it is soft-deleted. -/
def lockerStationInv (s : Store) : Prop :=
  ∀ l ∈ s.lockers, l.deleted = false → ∀ st ∈ s.stations, st.id = l.stationId →
    st.deleted = false

instance (s : Store) : Decidable (lockerStationInv s) := by
  unfold lockerStationInv; infer_instance

/-- An item of the `POST /stations` body whose `latitude` field is a number
outside the open interval (-90, 90). -/
def latOutOfRange (item : JVal) : Bool :=
  match getField item "latitude" with
  | .vnum la => !(decide (-90 < la) && decide (la < 90))
  | _ => false

/-- An item of the `POST /stations` body whose `longitude` field is a number
outside the open interval (-180, 180). -/
def lonOutOfRange (item : JVal) : Bool :=
  match getField item "longitude" with
  | .vnum lo => !(decide (-180 < lo) && decide (lo < 180))
  | _ => false

/-! ## Concrete states and inputs for witnesses and counterexamples -/

def emptyStore : Store := ⟨[], [], [], [], []⟩

/-- A station and its locker, both active. -/
def c1Init : Store :=
  ⟨[], [⟨1, "서울역", 37, 126, false⟩], [⟨1, 1, none, "unoccupied", none, none, false⟩], [], []⟩

/-- A soft-deleted station together with its soft-deleted locker. -/
def c2Store : Store :=
  ⟨[], [⟨1, "서울역", 37, 126, true⟩], [⟨1, 1, none, "unoccupied", none, none, true⟩], [], []⟩

/-- An active comment, an active user and an active station, all with id 1. -/
def c3Store : Store :=
  ⟨[⟨1, "u@mail.com", "hash", .user, false⟩], [⟨1, "서울역", 37, 126, false⟩], [],
   [⟨1, 1, some "t", some "c"⟩], [⟨1, 1, "comment", false⟩]⟩

/-- A soft-deleted comment with id 1. -/
def c4Store : Store := ⟨[], [], [], [], [⟨1, 1, "comment", true⟩]⟩

/-- One registered (active) user. -/
def c6Store : Store := ⟨[⟨1, "user1@mail.com", "hash", .user, false⟩], [], [], [], []⟩

/-- A station-creation item whose latitude 100 is out of range. -/
def c7BadItem : JVal :=
  .vobj [("name", .vstr "서울역"), ("latitude", .vnum 100), ("longitude", .vnum 0)]

/-- One registered user for the posts route. -/
def c10Store : Store := ⟨[⟨1, "a@b.com", "hash", .user, false⟩], [], [], [], []⟩

/-! ## Helper lemmas -/

theorem numberIsInteger_vstr (s : String) : numberIsInteger (.vstr s) = false := rfl

/-- A request value matches at most one primary-key value. -/
theorem paramMatchesId_inj {p : JVal} {i j : Nat}
    (hi : paramMatchesId p i = true) (hj : paramMatchesId p j = true) : i = j := by
  cases p with
  | vnum q =>
      simp only [paramMatchesId, beq_iff_eq] at hi hj
      exact_mod_cast hi ▸ hj
  | vstr s =>
      simp only [paramMatchesId, beq_iff_eq] at hi hj
      rw [hi] at hj
      exact_mod_cast Option.some_injective _ hj
  | vnull => simp [paramMatchesId] at hi
  | vundefined => simp [paramMatchesId] at hi
  | vobj fs => simp [paramMatchesId] at hi

theorem getComment_vstr (store : Store) (s : String) (a : Authority) (uid : Nat) :
    statusOf (getComment store (.vstr s) a uid).2 = some 400 ∧
      (getComment store (.vstr s) a uid).1 = store := by
  by_cases h : s.isEmpty <;>
    simp [getComment, truthy, numberIsInteger, h, statusOf]

theorem deleteComment_vstr (store : Store) (s : String) :
    statusOf (deleteComment store (.vstr s)).2 = some 400 ∧
      (deleteComment store (.vstr s)).1 = store := by
  by_cases h : s.isEmpty <;>
    simp [deleteComment, truthy, numberIsInteger, h, statusOf]

theorem getStation_vstr (store : Store) (s : String) (w : Bool) :
    statusOf (getStation store (.vstr s) w).2 = some 400 ∧
      (getStation store (.vstr s) w).1 = store := by
  by_cases h : s.isEmpty <;>
    simp [getStation, truthy, numberIsInteger, h, statusOf]

theorem restoreStation_vstr (store : Store) (s : String) :
    statusOf (restoreStation store (.vstr s)).2 = some 400 ∧
      (restoreStation store (.vstr s)).1 = store := by
  by_cases h : s.isEmpty <;>
    simp [restoreStation, checkRequiredParameters, truthy, numberIsInteger, h, statusOf]

theorem restoreUser_vstr (store : Store) (s : String) :
    statusOf (restoreUser store (.vstr s)).2 = some 400 ∧
      (restoreUser store (.vstr s)).1 = store := by
  by_cases h : s.isEmpty <;>
    simp [restoreUser, checkRequiredParameters, truthy, numberIsInteger, h, statusOf]

/-! ## Claim theorems -/

/-- C8: an id arriving as a route path parameter is a string, `Number.isInteger`
is false on every string, so GET /comments/:id, DELETE /comments/:id,
GET /stations/:id and PATCH /stations/restore/:id answer 400 for every string
parameter, every store, every attached identity and every weather outcome,
leaving the store unchanged — their success branches are unreachable. -/
theorem isInteger_guard_rejects_every_string_param (store : Store) (s : String)
    (a : Authority) (uid : Nat) (w : Bool) :
    (statusOf (getComment store (.vstr s) a uid).2 = some 400 ∧
      (getComment store (.vstr s) a uid).1 = store) ∧
    (statusOf (deleteComment store (.vstr s)).2 = some 400 ∧
      (deleteComment store (.vstr s)).1 = store) ∧
    (statusOf (getStation store (.vstr s) w).2 = some 400 ∧
      (getStation store (.vstr s) w).1 = store) ∧
    (statusOf (restoreStation store (.vstr s)).2 = some 400 ∧
      (restoreStation store (.vstr s)).1 = store) :=
  ⟨getComment_vstr store s a uid, deleteComment_vstr store s,
   getStation_vstr store s w, restoreStation_vstr store s⟩

/-- DELETE /stations/:id soft-deletes every locker of the station it finds
before (together with) soft-deleting the station, so it preserves the
station/locker invariant. -/
theorem deleteStation_preserves_inv (s : Store) (p : JVal)
    (h : lockerStationInv s) : lockerStationInv (deleteStation s p).1 := by
  unfold deleteStation
  split
  · exact h
  · cases hfind : findActiveStation s p with
    | none => simp only [hfind]; exact h
    | some st =>
      simp only [hfind]
      have hpred := List.find?_some hfind
      simp only [Bool.and_eq_true, Bool.not_eq_true'] at hpred
      intro l' hl' hld st' hst' hid
      simp only [List.mem_map] at hl' hst'
      obtain ⟨l, hl, rfl⟩ := hl'
      obtain ⟨s2, hs2, rfl⟩ := hst'
      by_cases hcl : (!l.deleted && l.stationId == st.id) = true
      · rw [if_pos hcl] at hld
        simp at hld
      · rw [if_neg hcl] at hld hid
        simp only [Bool.and_eq_true, Bool.not_eq_true'] at hcl
        by_cases hcs : (!s2.deleted && paramMatchesId p s2.id) = true
        · exfalso
          rw [if_pos hcs] at hid
          dsimp only at hid
          simp only [Bool.and_eq_true, Bool.not_eq_true'] at hcs
          have hs2id : s2.id = st.id := paramMatchesId_inj hcs.2 hpred.2
          apply hcl
          refine ⟨hld, ?_⟩
          simp only [beq_iff_eq]
          rw [← hid, hs2id]
        · rw [if_neg hcs] at hid ⊢
          exact h l hl hld s2 hs2 hid

/-- PATCH /stations/restore/:id restores the station (together with) restoring
its lockers — and rejects string parameters outright — so it preserves the
station/locker invariant. -/
theorem restoreStation_preserves_inv (s : Store) (p : JVal)
    (h : lockerStationInv s) : lockerStationInv (restoreStation s p).1 := by
  unfold restoreStation
  split
  · exact h
  · split
    · exact h
    · cases hfind : findActiveStation s p with
      | some st => simp only [hfind]; exact h
      | none =>
        simp only [hfind]
        intro l' hl' hld st' hst' hid
        simp only [List.mem_map] at hl' hst'
        obtain ⟨l, hl, rfl⟩ := hl'
        obtain ⟨s2, hs2, rfl⟩ := hst'
        by_cases hcs : (paramMatchesId p s2.id && s2.deleted) = true
        · rw [if_pos hcs]
        · rw [if_neg hcs] at hid ⊢
          by_cases hcl : (paramMatchesId p l.stationId && l.deleted) = true
          · rw [if_pos hcl] at hld hid
            dsimp only at hld hid
            simp only [Bool.and_eq_true] at hcl hcs
            exact of_not_not (fun hdel =>
              hcs ⟨by rw [hid]; exact hcl.1, Bool.of_not_eq_false hdel⟩)
          · rw [if_neg hcl] at hld hid
            exact h l hl hld s2 hs2 hid

/-- C1: in every state reachable by station DELETE and station restore
operations from a state satisfying the invariant, no locker is active while a
station owning it is soft-deleted: the DELETE handler soft-deletes the found
station's lockers together with the station, and the restore handler restores
the station together with its lockers. -/
theorem station_locker_invariant_preserved (init s : Store)
    (hinv : lockerStationInv init) (hreach : ReachableFrom init s) :
    lockerStationInv s := by
  induction hreach with
  | refl => exact hinv
  | step op _ ih =>
    cases op with
    | del p => exact deleteStation_preserves_inv _ p ih
    | restore p => exact restoreStation_preserves_inv _ p ih

/-- Witness for C1 at a concrete state: the invariant holds initially and
after deleting station 1 and then attempting a restore. -/
theorem station_locker_invariant_preserved_witness :
    lockerStationInv c1Init ∧
      lockerStationInv
        (applyStationOp (applyStationOp c1Init (.del (.vstr "1"))) (.restore (.vstr "1"))) :=
  ⟨by decide,
   station_locker_invariant_preserved c1Init _ (by decide)
     (ReachableFrom.step _ (ReachableFrom.step _ ReachableFrom.refl))⟩

/-- C2 (code bug): with station 1 and its locker soft-deleted, the HTTP request
PATCH /stations/restore/1 hands the handler the string "1"; the
`Number.isInteger` guard rejects it with 400 and nothing is restored, although
the route's own swagger documentation promises the station and its lockers
back. -/
theorem restore_station_route_never_restores :
    restoreStation c2Store (.vstr "1") =
      (c2Store, .response 400 "복구할 station 의  id 는 숫자로 입력해주세요.") := by
  rfl

theorem splitChar_ne_nil (sep : Char) (cs : List Char) : splitChar sep cs ≠ [] := by
  cases cs with
  | nil => simp [splitChar]
  | cons c rest =>
    simp only [splitChar]
    split
    · simp
    · split <;> simp

/-- Splitting at a character that occurs in the list yields at least two
segments (so `split('@')[1]` is defined when the email contains `@`). -/
theorem splitChar_length_of_mem (sep : Char) {cs : List Char} (h : sep ∈ cs) :
    2 ≤ (splitChar sep cs).length := by
  induction cs with
  | nil => simp at h
  | cons c rest ih =>
    simp only [splitChar]
    by_cases hc : (c == sep) = true
    · rw [if_pos hc]
      have h1 : 0 < (splitChar sep rest).length :=
        List.length_pos.mpr (splitChar_ne_nil sep rest)
      simp only [List.length_cons]
      omega
    · rw [if_neg hc]
      have hmem : sep ∈ rest := by
        rcases List.mem_cons.mp h with h1 | h2
        · subst h1; exact absurd (beq_self_eq_true sep) hc
        · exact h2
      have h2 := ih hmem
      cases hsp : splitChar sep rest with
      | nil => exact absurd hsp (splitChar_ne_nil sep rest)
      | cons hd tl =>
        rw [hsp] at h2
        simp only [List.length_cons] at h2 ⊢
        omega

/-- Splitting at an absent character returns the whole list as one segment
(so `split('@')[1]` is `undefined` when the email has no `@`). -/
theorem splitChar_not_mem {sep : Char} {cs : List Char} (h : sep ∉ cs) :
    splitChar sep cs = [cs] := by
  induction cs with
  | nil => rfl
  | cons c rest ih =>
    simp only [splitChar]
    have hc : ¬(c == sep) = true := by
      simp only [beq_iff_eq]
      rintro rfl
      exact h (List.mem_cons_self c rest)
    rw [if_neg hc, ih (fun hm => h (List.mem_cons_of_mem c hm))]

/-- C6: a sign-up whose email is already registered answers 400 with the
duplication message whatever the password and the rest of the email look like:
the duplication probe runs before every other validation. -/
theorem signup_duplicate_email_always_400 (hash : String → String) (store : Store)
    (email password : String) (hdup : (findActiveUserByEmail store email).isSome = true) :
    signUp hash store email password =
      (store, .response 400 "입력하신 이메일은 이미 사용 중입니다.") := by
  unfold signUp
  rw [if_pos hdup]

/-- Witness for C6: a duplicate of the registered email is rejected with 400
even though its password is far out of bounds and the email malformed by every
other rule. -/
theorem signup_duplicate_email_always_400_witness :
    (findActiveUserByEmail c6Store "user1@mail.com").isSome = true ∧
      signUp (fun s => s) c6Store "user1@mail.com" "x" =
        (c6Store, .response 400 "입력하신 이메일은 이미 사용 중입니다.") :=
  ⟨by decide, signup_duplicate_email_always_400 (fun s => s) c6Store
    "user1@mail.com" "x" (by decide)⟩

/-- C5 counterexample: the unregistered email "abc" has no `@`, so with the
one-character password "x" the sign-up handler raises a `TypeError` at the
domain check instead of answering 400. -/
theorem signup_short_password_not_always_400 :
    "x".length < 8 ∧ (signUp (fun s => s) emptyStore "abc" "x").2 = .jsError ∧
      statusOf (signUp (fun s => s) emptyStore "abc" "x").2 ≠ some 400 := by
  decide

/-- C5 (amended): for every sign-up whose email contains an `@` — so that
`email.split('@')[1]` is defined — a password of length below 8 or above 15
yields a 400 response: every validation branch before the password check
answers 400, and the reached password check does too. -/
theorem signup_bad_password_with_at_is_400 (hash : String → String) (store : Store)
    (email password : String) (hat : '@' ∈ email.data)
    (hp : password.length < 8 ∨ 15 < password.length) :
    statusOf (signUp hash store email password).2 = some 400 := by
  have hlen := splitChar_length_of_mem '@' hat
  unfold signUp
  split
  · rfl
  · split
    · rfl
    · split
      · rfl
      · split
        · rfl
        · cases hget : (splitChar '@' email.data).get? 1 with
          | none =>
            rw [List.get?_eq_get (by omega)] at hget
            exact absurd hget (Option.some_ne_none _)
          | some dom =>
            simp only [hget]
            split
            · rfl
            · split
              · rfl
              · rename_i hcond
                exfalso
                simp only [Bool.or_eq_true, decide_eq_true_eq, not_or] at hcond
                omega

/-- Witness for C5 (amended): email "a@b" with password "x". -/
theorem signup_bad_password_with_at_is_400_witness :
    ('@' ∈ "a@b".data ∧ "x".length < 8) ∧
      statusOf (signUp (fun s => s) emptyStore "a@b" "x").2 = some 400 :=
  ⟨⟨by decide, by decide⟩,
   signup_bad_password_with_at_is_400 (fun s => s) emptyStore "a@b" "x"
     (by decide) (Or.inl (by decide))⟩

/-- C9 counterexample: the unregistered email "!a" contains no `@`, yet
sign-up answers with a 400 `HttpException` — the special-character check fires
before the domain check ever evaluates `split('@')[1]`. -/
theorem signup_no_at_can_still_be_400 :
    ('@' ∉ "!a".data ∧ findActiveUserByEmail emptyStore "!a" = none) ∧
      (signUp (fun s => s) emptyStore "!a" "x").2 =
        .response 400 "입력하신 이메일에 특수문자가 있습니다." := by
  decide

/-- C9 (amended): a sign-up whose unregistered email contains no `@` raises a
`TypeError` (no 400 `HttpException`) provided the email also passes the three
checks that precede the domain check: no blocked special character, no
whitespace, and a leading character of the `[0-9,a-zA-Z]` class. -/
theorem signup_no_at_raises_typeerror (hash : String → String) (store : Store)
    (email password : String) (hat : '@' ∉ email.data)
    (hdup : findActiveUserByEmail store email = none)
    (hspec : hasSpecialChar email = false) (hspace : hasJsSpace email = false)
    (hstart : startsAlnumComma email = true) :
    (signUp hash store email password).2 = .jsError := by
  unfold signUp
  rw [hdup, hspec, hspace, hstart, splitChar_not_mem hat]
  simp

/-- Witness for C9 (amended): the email "abc". -/
theorem signup_no_at_raises_typeerror_witness :
    ('@' ∉ "abc".data ∧ findActiveUserByEmail emptyStore "abc" = none ∧
        hasSpecialChar "abc" = false ∧ hasJsSpace "abc" = false ∧
        startsAlnumComma "abc" = true) ∧
      (signUp (fun s => s) emptyStore "abc" "password1").2 = .jsError :=
  ⟨by decide,
   signup_no_at_raises_typeerror (fun s => s) emptyStore "abc" "password1"
     (by decide) (by decide) (by decide) (by decide) (by decide)⟩

/-- C3: when the record with the given id is active under the default scope,
each restore route — comment, user, station — answers 400 and leaves the whole
store unchanged, the id arriving as its decimal-string route parameter. -/
theorem restore_active_record_400_unchanged (store : Store) (s : String) (id : Nat)
    (hs : jsStringToNumber s = some ((id : Nat) : Rat)) :
    ((∃ c ∈ store.comments, c.deleted = false ∧ c.id = id) →
        statusOf (restoreComment store (.vstr s)).2 = some 400 ∧
          (restoreComment store (.vstr s)).1 = store) ∧
    ((∃ u ∈ store.users, u.deleted = false ∧ u.id = id) →
        statusOf (restoreUser store (.vstr s)).2 = some 400 ∧
          (restoreUser store (.vstr s)).1 = store) ∧
    ((∃ st ∈ store.stations, st.deleted = false ∧ st.id = id) →
        statusOf (restoreStation store (.vstr s)).2 = some 400 ∧
          (restoreStation store (.vstr s)).1 = store) := by
  refine ⟨?_, fun _ => restoreUser_vstr store s, fun _ => restoreStation_vstr store s⟩
  rintro ⟨c, hc, hcd, hcid⟩
  unfold restoreComment
  by_cases hid0 : id = 0
  · subst hid0
    by_cases hemp : s.isEmpty
    · simp [truthy, hemp, statusOf]
    · simp [truthy, hemp, jsNumberOf, hs, numTruthy, statusOf]
  · have hemp : s.isEmpty = false := by
      rw [Bool.eq_false_iff]
      intro hemp'
      rw [String.isEmpty_iff] at hemp'
      rw [hemp'] at hs
      have : ((0 : Nat) : Rat) = ((id : Nat) : Rat) := by
        simpa [jsStringToNumber, jsTrim] using hs
      exact hid0 (by exact_mod_cast this.symm)
    have hfind : (findActiveComment store (.vstr s)).isSome = true := by
      unfold findActiveComment
      rw [List.find?_isSome]
      exact ⟨c, hc, by simp [paramMatchesId, hs, hcd, hcid]⟩
    obtain ⟨c', hc'⟩ := Option.isSome_iff_exists.mp hfind
    have hidr : ((id : Nat) : Rat) ≠ 0 := Nat.cast_ne_zero.mpr hid0
    simp [truthy, hemp, jsNumberOf, hs, numTruthy, hc', statusOf, hidr]

/-- Witness for C3: store with an active comment, user and station of id 1,
restored through the string parameter "1". -/
theorem restore_active_record_400_unchanged_witness :
    (statusOf (restoreComment c3Store (.vstr "1")).2 = some 400 ∧
        (restoreComment c3Store (.vstr "1")).1 = c3Store) ∧
      (statusOf (restoreUser c3Store (.vstr "1")).2 = some 400 ∧
        (restoreUser c3Store (.vstr "1")).1 = c3Store) ∧
      (statusOf (restoreStation c3Store (.vstr "1")).2 = some 400 ∧
        (restoreStation c3Store (.vstr "1")).1 = c3Store) :=
  ⟨(restore_active_record_400_unchanged c3Store "1" 1 (by decide)).1 (by decide),
   (restore_active_record_400_unchanged c3Store "1" 1 (by decide)).2.1 (by decide),
   (restore_active_record_400_unchanged c3Store "1" 1 (by decide)).2.2 (by decide)⟩

/-- C10: POST /posts validates only the email lookup: with a registered email
a post is appended carrying exactly the supplied title and content (possibly
absent) and the found user's id; with an unregistered email it answers 400 and
changes nothing. -/
theorem create_post_only_checks_email (store : Store) (email : String)
    (title content : Option String) :
    (∀ u, findActiveUserByEmail store email = some u →
        createPost store email title content =
          ({store with posts := store.posts ++ [⟨nextPostId store, u.id, title, content⟩]},
           .response 201 "")) ∧
    (findActiveUserByEmail store email = none →
        createPost store email title content =
          (store, .response 400 "해당하는 이메일은 등록되어 있지 않습니다.")) := by
  constructor
  · intro u hu
    unfold createPost
    rw [hu]
  · intro hnone
    unfold createPost
    rw [hnone]

/-- Witness for C10: a post with absent title for the registered user, and a
400 for an unknown email. -/
theorem create_post_only_checks_email_witness :
    createPost c10Store "a@b.com" none (some "문의") =
      ({c10Store with posts := [⟨1, 1, none, some "문의"⟩]}, .response 201 "") ∧
      createPost c10Store "nobody@b.com" none (some "문의") =
        (c10Store, .response 400 "해당하는 이메일은 등록되어 있지 않습니다.") :=
  ⟨(create_post_only_checks_email c10Store "a@b.com" none (some "문의")).1
      ⟨1, "a@b.com", "hash", .user, false⟩ (by decide),
   (create_post_only_checks_email c10Store "nobody@b.com" none (some "문의")).2
      (by decide)⟩

/-- An item with an out-of-range latitude or longitude field is an object. -/
theorem bad_item_vobj {item : JVal}
    (h : (latOutOfRange item || lonOutOfRange item) = true) : ∃ fs, item = .vobj fs := by
  cases item with
  | vobj fs => exact ⟨fs, rfl⟩
  | vstr s => simp [latOutOfRange, lonOutOfRange, getField] at h
  | vnum q => simp [latOutOfRange, lonOutOfRange, getField] at h
  | vnull => simp [latOutOfRange, lonOutOfRange, getField] at h
  | vundefined => simp [latOutOfRange, lonOutOfRange, getField] at h

/-- The item step only crashes when `Object.keys` raised, that is on a `null`
or `undefined` item. -/
theorem stationItemStep_crash {store : Store} {item : JVal}
    (h : stationItemStep store item = .crash) : jsObjectKeys item = none := by
  unfold stationItemStep at h
  repeat' split at h
  all_goals simp_all

/-- An item with an out-of-range latitude or longitude never validates: the
range checks sit before station creation. -/
theorem stationItemStep_bad_ne_ok {store : Store} {item : JVal} {nm : String} {la lo : Rat}
    (hbad : (latOutOfRange item || lonOutOfRange item) = true) :
    stationItemStep store item ≠ .ok nm la lo := by
  intro h
  unfold stationItemStep at h
  repeat' split at h
  all_goals simp_all [latOutOfRange, lonOutOfRange]

/-- One step of the station-creation loop either rejects with 400 leaving the
store as it is, raises a `TypeError`, or creates one station and continues. -/
theorem postStationsLoop_cons (store : Store) (it0 : JVal) (rest : List JVal) :
    (∃ msg, postStationsLoop store (it0 :: rest) = (store, .response 400 msg)) ∨
    (stationItemStep store it0 = .crash ∧
      postStationsLoop store (it0 :: rest) = (store, .jsError)) ∨
    (∃ nm la lo, stationItemStep store it0 = .ok nm la lo ∧
      postStationsLoop store (it0 :: rest) =
        postStationsLoop
          {store with stations := store.stations ++ [⟨nextStationId store, nm, la, lo, false⟩]}
          rest) := by
  cases h : stationItemStep store it0 with
  | crash => exact Or.inr (Or.inl ⟨rfl, by rw [postStationsLoop, h]⟩)
  | err msg => exact Or.inl ⟨msg, by rw [postStationsLoop, h]⟩
  | ok nm la lo => exact Or.inr (Or.inr ⟨nm, la, lo, rfl, by rw [postStationsLoop, h]⟩)

/-- Running the loop over a list whose `i`-th item has an out-of-range
coordinate, with no `null`/`undefined` item before it, answers 400 and creates
stations only for items strictly before position `i`. -/
theorem postStationsLoop_bad_item :
    ∀ (data : List JVal) (store : Store) (i : Nat) (item : JVal),
      data.get? i = some item →
      (latOutOfRange item || lonOutOfRange item) = true →
      (∀ j, j < i → ∀ it, data.get? j = some it → jsObjectKeys it ≠ none) →
      statusOf (postStationsLoop store data).2 = some 400 ∧
        (postStationsLoop store data).1.stations.length ≤ store.stations.length + i := by
  intro data
  induction data with
  | nil => intro store i item hi _ _; simp at hi
  | cons it0 rest ih =>
    intro store i item hi hbad hprev
    rcases postStationsLoop_cons store it0 rest with
      ⟨msg, heq⟩ | ⟨hcrash, heq⟩ | ⟨nm, la, lo, hok, heq⟩
    · rw [heq]
      refine ⟨rfl, ?_⟩
      show store.stations.length ≤ store.stations.length + i
      omega
    · exfalso
      cases i with
      | zero =>
        have hit : it0 = item := by simpa using hi
        subst hit
        obtain ⟨fs, hfs⟩ := bad_item_vobj hbad
        rw [hfs] at hcrash
        simpa [jsObjectKeys] using stationItemStep_crash hcrash
      | succ j =>
        exact hprev 0 (Nat.succ_pos j) it0 rfl (stationItemStep_crash hcrash)
    · cases i with
      | zero =>
        have hit : it0 = item := by simpa using hi
        subst hit
        exact absurd hok (stationItemStep_bad_ne_ok hbad)
      | succ j =>
        rw [heq]
        have hi' : rest.get? j = some item := hi
        have hprev' : ∀ j', j' < j → ∀ it, rest.get? j' = some it → jsObjectKeys it ≠ none :=
          fun j' hj' it hit => hprev (j' + 1) (by omega) it hit
        have hres :=
          ih {store with stations :=
                store.stations ++ [⟨nextStationId store, nm, la, lo, false⟩]}
            j item hi' hbad hprev'
        refine ⟨hres.1, ?_⟩
        have hlen := hres.2
        simp only [List.length_append, List.length_cons, List.length_nil] at hlen
        omega

/-- C7 counterexample: with the body `[null, {name, latitude: 100, longitude:
0}]`, the second item's latitude is out of range, yet the request does not
answer 400: `Object.keys(null)` raises a `TypeError` on the first item. -/
theorem post_stations_out_of_range_not_always_400 :
    latOutOfRange c7BadItem = true ∧
      [JVal.vnull, c7BadItem].get? 1 = some c7BadItem ∧
      (postStations emptyStore (some [JVal.vnull, c7BadItem])).2 = HResult.jsError :=
  ⟨by decide, rfl, by decide⟩

/-- C7 (amended): if the item at position `i` of the `POST /stations` body has
a numeric latitude outside (-90, 90) or a numeric longitude outside
(-180, 180), and no item before it is `null` or `undefined`, the request
answers 400 and no station is created for that item — only items strictly
before it can have created one. -/
theorem post_stations_out_of_range_rejected (store : Store) (data : List JVal)
    (i : Nat) (item : JVal) (hi : data.get? i = some item)
    (hbad : (latOutOfRange item || lonOutOfRange item) = true)
    (hprev : ∀ j, j < i → ∀ it, data.get? j = some it → jsObjectKeys it ≠ none) :
    statusOf (postStations store (some data)).2 = some 400 ∧
      (postStations store (some data)).1.stations.length ≤ store.stations.length + i :=
  postStationsLoop_bad_item data store i item hi hbad hprev

/-- Witness for C7 (amended): a single item with latitude 100. -/
theorem post_stations_out_of_range_rejected_witness :
    (latOutOfRange c7BadItem || lonOutOfRange c7BadItem) = true ∧
      statusOf (postStations emptyStore (some [c7BadItem])).2 = some 400 ∧
      (postStations emptyStore (some [c7BadItem])).1.stations.length ≤
        emptyStore.stations.length + 0 :=
  ⟨by decide,
   (post_stations_out_of_range_rejected emptyStore [c7BadItem] 0 c7BadItem rfl
      (by decide) (fun j hj _ _ => absurd hj (Nat.not_lt_zero j))).1,
   (post_stations_out_of_range_rejected emptyStore [c7BadItem] 0 c7BadItem rfl
      (by decide) (fun j hj _ _ => absurd hj (Nat.not_lt_zero j))).2⟩

/-- C4 (code bug): restoring the soft-deleted comment 1 through
PATCH /comments/restore/1 succeeds — the comment becomes active again — but
the response status is 200, not the 201 announced by the spec and by the
route's swagger documentation. -/
theorem restore_comment_success_answers_200 :
    restoreComment c4Store (.vstr "1") =
      (⟨[], [], [], [], [⟨1, 1, "comment", false⟩]⟩, .response 200 "") := by
  decide

end SubwayLocker
